import Mathlib

/-!
Verification of the AeroPredict core (aeropredict_system.py, config.py,
view_database.py) against its natural-language specification.

The four algorithmic components are shallowly embedded:
* `create_nasa_sample_data` — the degradation-series generator with the
  derived RUL label (source: `AeroPredictSystem.create_nasa_sample_data`);
* `synthesizeEvents` — the maintenance-event synthesizer (source: the two
  loops at the top of `AeroPredictSystem.generate_cost_analytics`);
* `computeAnalytics` / `upsert` — the cost-analytics aggregator (source:
  the SQL aggregate query and savings arithmetic of
  `generate_cost_analytics`, and the `INSERT OR REPLACE` upsert into
  `cost_analytics` keyed by the `period` primary key);
* `find_best_supplier` — the supplier ranker (source:
  `AeroPredictSystem.find_best_supplier`).

Numeric fields that are Python floats are embedded as exact rationals;
machine integers stay Nat/Int (the values involved are far from any
overflow boundary and Python integers are unbounded anyway).
-/

namespace AeroPredict

/-! ## Seeded random source

The source seeds numpy's global generator (`np.random.seed(42)`) and then
draws from it.  The Mersenne Twister itself is external library code; it is
modelled here as a pure deterministic stream keyed by the seed (a 64-bit
linear congruential step), which preserves exactly the properties the code
relies on: the stream is a function of the seed alone, and the library
contracts of `np.random.randint(low, high)` (uniform over the half-open
range `[low, high)`, `ValueError` when `low >= high`) and
`np.random.uniform(low, high)` (a value in `[low, high)`).
-/

structure RNG where
  state : Nat
deriving Repr, DecidableEq

def mkRNG (seed : Nat) : RNG := ⟨seed⟩

def RNG.next (g : RNG) : Nat × RNG :=
  let s := (g.state * 6364136223846793005 + 1442695040888963407) % (2 ^ 64)
  (s / 2 ^ 32, ⟨s⟩)

/-- `np.random.randint(low, high)`: a draw from the half-open integer range
`[low, high)`; raises `ValueError` (here: `none`) when `low >= high`. -/
def randint (low high : Nat) (g : RNG) : Option (Nat × RNG) :=
  if low < high then some (low + g.next.1 % (high - low), g.next.2) else none

/-- `np.random.uniform(low, high)`: `low + (high - low) * u` with `u` in
`[0, 1)` drawn from the stream. -/
def uniformQ (low high : ℚ) (g : RNG) : ℚ × RNG :=
  let (v, g1) := g.next
  (low + (high - low) * ((v : ℚ) / 2 ^ 32), g1)

/-! ## Degradation-series generator (source lines 85-142) -/

/-- One row of the NASA-format table built by `create_nasa_sample_data`:
unit id, time cycle, and the list of numeric columns
(setting1, setting2, setting3, sensor_1 .. sensor_21) in source order. -/
structure Reading where
  unit_id : Nat
  time_cycle : Nat
  values : List ℚ
deriving Repr, DecidableEq

/-- The numeric columns of one row: three operational settings drawn from
the random stream, then the 21 sensor values, each a fixed affine function
of `degradation_factor = cycle / cycles` with the base values and slopes of
source lines 99-123. -/
def sensorRow (cycle cycles : Nat) (g : RNG) : List ℚ × RNG :=
  let df : ℚ := (cycle : ℚ) / (cycles : ℚ)
  let (s1, g1) := uniformQ (-7/10000) (20/10000) g
  let (s2, g2) := uniformQ 0 (5/10000) g1
  let (s3, g3) := uniformQ 100 100 g2
  ([s1, s2, s3,
    51867/100 + df * 15,
    64182/100 + df * 20,
    15897/10 + df * 100,
    14006/10 + df * 50,
    1462/100 - df * 2,
    2161/100,
    55436/100 + df * 25,
    23880/10 + df * 80,
    90462/10 - df * 100,
    130/100,
    4747/100 + df * 8,
    52166/100 + df * 15,
    23880/10 + df * 80,
    81386/10 - df * 90,
    84195/10000 - df * (5/10),
    3/100 + df * (1/100),
    392 + df * 30,
    2388 + df * 80,
    100,
    3886/100 + df * 5,
    23419/1000 - df * 1], g3)

/-- The inner `for cycle in range(1, cycles + 1)` loop for one unit,
threading the random stream through the per-row setting draws. -/
def genCycles (u cycles : Nat) : List Nat → RNG → List Reading × RNG
  | [], g => ([], g)
  | c :: cs, g =>
    let vg := sensorRow c cycles g
    let rest := genCycles u cycles cs vg.2
    (⟨u, c, vg.1⟩ :: rest.1, rest.2)

/-- The outer `for unit_id in range(1, 101)` loop: for each unit draw its
lifespan with `randint` and emit its cycle rows.  Fails (as the Python
would, via `ValueError`) when `randint`'s range is empty. -/
def genAllRows (mn mx : Nat) : List Nat → RNG → Option (List Reading × RNG)
  | [], g => some ([], g)
  | u :: us, g =>
    match randint mn mx g with
    | none => none
    | some ng =>
      let block := genCycles u ng.1 (List.range' 1 ng.1) ng.2
      match genAllRows mn mx us block.2 with
      | none => none
      | some rest => some (block.1 ++ rest.1, rest.2)

/-- The cycles column of the rows belonging to unit `u`. -/
def unitSpan (rows : List Reading) (u : Nat) : List Nat :=
  (rows.filter (fun r => r.unit_id = u)).map (fun r => r.time_cycle)

/-- `unit_data['time_cycle'].max()` of source line 137: the maximum cycle
among the rows of unit `u`. -/
def maxCycleOf (rows : List Reading) (u : Nat) : Nat :=
  (unitSpan rows u).foldl max 0

/-- The second pass of source lines 133-142: each row is given
`RUL = max_cycle(unit) - time_cycle`. -/
def addRUL (rows : List Reading) : List (Reading × Int) :=
  rows.map (fun r => (r, (maxCycleOf rows r.unit_id : Int) - (r.time_cycle : Int)))

/-- `create_nasa_sample_data`, parameterised by the configuration constants
it uses (`NUM_ENGINES = 100`, `MIN_CYCLES = 150`, `MAX_CYCLES = 350`,
`RANDOM_SEED = 42` in config.py; the source hardcodes
`range(1, 101)` and `np.random.randint(150, 350)` after
`np.random.seed(42)`). -/
def create_nasa_sample_data (units mn mx seed : Nat) :
    Option (List (Reading × Int)) :=
  match genAllRows mn mx (List.range' 1 units) (mkRNG seed) with
  | none => none
  | some res => some (addRUL res.1)

/-- The repository's actual invocation. -/
def nasaTrainData : Option (List (Reading × Int)) :=
  create_nasa_sample_data 100 150 350 42

/-- The cycles column of the labelled output restricted to unit `u`. -/
def cyclesOf (out : List (Reading × Int)) (u : Nat) : List Nat :=
  (out.filter (fun p => p.1.unit_id = u)).map (fun p => p.1.time_cycle)

/-- The RUL column of the labelled output restricted to unit `u`. -/
def rulsOf (out : List (Reading × Int)) (u : Nat) : List Int :=
  (out.filter (fun p => p.1.unit_id = u)).map (fun p => p.2)

/-! ## Structural lemmas about the generator -/

theorem randint_some {low high v : Nat} {g g1 : RNG}
    (h : randint low high g = some (v, g1)) : low ≤ v ∧ v < high := by
  unfold randint at h
  split at h
  · rename_i hlt
    have hm : g.next.1 % (high - low) < high - low := Nat.mod_lt _ (by omega)
    simp only [Option.some.injEq, Prod.mk.injEq] at h
    obtain ⟨hv, -⟩ := h
    omega
  · exact absurd h (by simp)

theorem randint_none {low high : Nat} (g : RNG) (h : high ≤ low) :
    randint low high g = none := by
  unfold randint
  rw [if_neg (by omega)]

theorem randint_lt {low high : Nat} (g : RNG) (h : low < high) :
    randint low high g = some (low + g.next.1 % (high - low), g.next.2) := by
  unfold randint
  rw [if_pos h]

theorem genCycles_unit (u cycles : Nat) (cs : List Nat) :
    ∀ (g : RNG) (r : Reading), r ∈ (genCycles u cycles cs g).1 → r.unit_id = u := by
  induction cs with
  | nil => intro g r hr; simp [genCycles] at hr
  | cons c cs ih =>
    intro g r hr
    simp only [genCycles, List.mem_cons] at hr
    rcases hr with rfl | hr
    · rfl
    · exact ih _ r hr

theorem genCycles_cycles (u cycles : Nat) (cs : List Nat) :
    ∀ g : RNG, ((genCycles u cycles cs g).1.map fun r => r.time_cycle) = cs := by
  induction cs with
  | nil => intro g; simp [genCycles]
  | cons c cs ih => intro g; simp [genCycles, ih]

theorem unitSpan_append (a b : List Reading) (u : Nat) :
    unitSpan (a ++ b) u = unitSpan a u ++ unitSpan b u := by
  simp [unitSpan]

theorem unitSpan_eq_nil {rows : List Reading} {u : Nat}
    (h : ∀ r ∈ rows, r.unit_id ≠ u) : unitSpan rows u = [] := by
  unfold unitSpan
  rw [List.filter_eq_nil_iff.mpr]
  · rfl
  · intro r hr
    simpa using h r hr

theorem unitSpan_all {rows : List Reading} {u : Nat}
    (h : ∀ r ∈ rows, r.unit_id = u) :
    unitSpan rows u = rows.map fun r => r.time_cycle := by
  unfold unitSpan
  rw [List.filter_eq_self.mpr]
  intro r hr
  simpa using h r hr

theorem foldl_max_range' : ∀ (n s a : Nat),
    (List.range' s n).foldl max a = if n = 0 then a else max a (s + n - 1) := by
  intro n
  induction n with
  | zero => intro s a; simp
  | succ n ih =>
    intro s a
    rw [List.range'_succ]
    simp only [List.foldl_cons]
    rw [ih]
    by_cases hn : n = 0
    · subst hn; simp
    · rw [if_neg hn, if_neg (Nat.succ_ne_zero n)]
      have h1 : s + 1 + n - 1 = s + n := by omega
      have h2 : s + (n + 1) - 1 = s + n := by omega
      rw [h1, h2, Nat.max_assoc]
      congr 1
      exact Nat.max_eq_right (Nat.le_add_right s n)

theorem maxCycleOf_eq {rows : List Reading} {u N : Nat}
    (h : unitSpan rows u = List.range' 1 N) (hN : 1 ≤ N) :
    maxCycleOf rows u = N := by
  unfold maxCycleOf
  rw [h, foldl_max_range', if_neg (by omega), Nat.zero_max]
  omega

theorem genAllRows_cons_none {mn mx : Nat} {g : RNG} (u : Nat) (us : List Nat)
    (h : randint mn mx g = none) : genAllRows mn mx (u :: us) g = none := by
  unfold genAllRows
  rw [h]

theorem genAllRows_cons_some {mn mx : Nat} {g : RNG} {ng : Nat × RNG}
    (u : Nat) (us : List Nat) (h : randint mn mx g = some ng) :
    genAllRows mn mx (u :: us) g =
      match genAllRows mn mx us (genCycles u ng.1 (List.range' 1 ng.1) ng.2).2 with
      | none => none
      | some rest =>
        some ((genCycles u ng.1 (List.range' 1 ng.1) ng.2).1 ++ rest.1, rest.2) := by
  conv_lhs => unfold genAllRows
  rw [h]

theorem genAllRows_spec (mn mx : Nat) (us : List Nat) :
    ∀ (g : RNG) (res : List Reading × RNG), us.Nodup →
      genAllRows mn mx us g = some res →
      (∀ r ∈ res.1, r.unit_id ∈ us) ∧
      (∀ u ∈ us, ∃ N, mn ≤ N ∧ N < mx ∧ unitSpan res.1 u = List.range' 1 N) := by
  induction us with
  | nil =>
    intro g res _ h
    simp only [genAllRows, Option.some.injEq] at h
    subst h
    exact ⟨by intro r hr; simp at hr, by intro u hu; simp at hu⟩
  | cons u us ih =>
    intro g res hnodup h
    obtain ⟨hu_not, hus_nodup⟩ := List.nodup_cons.mp hnodup
    cases hr : randint mn mx g with
    | none => rw [genAllRows_cons_none u us hr] at h; exact absurd h (by simp)
    | some ng =>
      rw [genAllRows_cons_some u us hr] at h
      cases hrest : genAllRows mn mx us (genCycles u ng.1 (List.range' 1 ng.1) ng.2).2 with
      | none => rw [hrest] at h; exact absurd h (by simp)
      | some rest =>
        rw [hrest] at h
        simp only [Option.some.injEq] at h
        subst h
        obtain ⟨hrest_unit, hrest_span⟩ := ih _ rest hus_nodup hrest
        have hblock_unit : ∀ r ∈ (genCycles u ng.1 (List.range' 1 ng.1) ng.2).1,
            r.unit_id = u := genCycles_unit u ng.1 _ _
        constructor
        · intro r hrh
          rcases List.mem_append.mp hrh with h1 | h1
          · exact List.mem_cons.mpr (Or.inl (hblock_unit r h1))
          · exact List.mem_cons.mpr (Or.inr (hrest_unit r h1))
        · intro w hw
          rcases List.mem_cons.mp hw with rfl | hw1
          · refine ⟨ng.1, ?_, ?_, ?_⟩
            · exact (randint_some (by rw [hr])).1
            · exact (randint_some (by rw [hr])).2
            · rw [unitSpan_append]
              rw [unitSpan_all hblock_unit, genCycles_cycles]
              rw [unitSpan_eq_nil
                (fun r hrr hru => hu_not (by rw [← hru]; exact hrest_unit r hrr))]
              simp
          · obtain ⟨N, hN1, hN2, hspan⟩ := hrest_span w hw1
            refine ⟨N, hN1, hN2, ?_⟩
            rw [unitSpan_append]
            rw [unitSpan_eq_nil
              (fun r hrr hru => hu_not (by rw [← hblock_unit r hrr, hru]; exact hw1))]
            simpa using hspan

theorem genAllRows_total (mn mx : Nat) (hlt : mn < mx) (us : List Nat) :
    ∀ g : RNG, ∃ res, genAllRows mn mx us g = some res := by
  induction us with
  | nil => intro g; exact ⟨([], g), rfl⟩
  | cons u us ih =>
    intro g
    have hr := randint_lt g hlt
    set n := mn + g.next.1 % (mx - mn) with hn
    obtain ⟨rest, hrest⟩ := ih (genCycles u n (List.range' 1 n) g.next.2).2
    refine ⟨((genCycles u n (List.range' 1 n) g.next.2).1 ++ rest.1, rest.2), ?_⟩
    rw [genAllRows_cons_some u us hr, hrest]

theorem create_spec {units mn mx seed : Nat} {out : List (Reading × Int)}
    (h : create_nasa_sample_data units mn mx seed = some out) :
    ∃ rows : List Reading, out = addRUL rows ∧
      (∀ r ∈ rows, r.unit_id ∈ List.range' 1 units) ∧
      (∀ u ∈ List.range' 1 units,
        ∃ N, mn ≤ N ∧ N < mx ∧ unitSpan rows u = List.range' 1 N) := by
  unfold create_nasa_sample_data at h
  cases hg : genAllRows mn mx (List.range' 1 units) (mkRNG seed) with
  | none => rw [hg] at h; exact absurd h (by simp)
  | some res =>
    rw [hg] at h
    simp only [Option.some.injEq] at h
    obtain ⟨h1, h2⟩ :=
      genAllRows_spec mn mx (List.range' 1 units) (mkRNG seed) res
        (List.nodup_range' 1 units) hg
    exact ⟨res.1, h.symm, h1, h2⟩

theorem mem_addRUL {rows : List Reading} {p : Reading × Int} (hp : p ∈ addRUL rows) :
    p.1 ∈ rows ∧
      p.2 = (maxCycleOf rows p.1.unit_id : Int) - (p.1.time_cycle : Int) := by
  unfold addRUL at hp
  rcases List.mem_map.mp hp with ⟨r, hr, rfl⟩
  exact ⟨hr, rfl⟩

theorem filter_pair (f : Reading → Int) (u : Nat) :
    ∀ l : List Reading,
      (l.map fun r => (r, f r)).filter (fun p => p.1.unit_id = u) =
        (l.filter fun r => r.unit_id = u).map fun r => (r, f r) := by
  intro l
  induction l with
  | nil => rfl
  | cons r l ih =>
    simp only [List.map_cons, List.filter_cons]
    by_cases h : r.unit_id = u
    · simp [h, ih]
    · simp [h, ih]

theorem cyclesOf_map (f : Reading → Int) (u : Nat) (l : List Reading) :
    cyclesOf (l.map fun r => (r, f r)) u = unitSpan l u := by
  unfold cyclesOf
  rw [filter_pair, List.map_map]
  rfl

theorem rulsOf_map (f : Reading → Int) (u : Nat) (l : List Reading) :
    rulsOf (l.map fun r => (r, f r)) u =
      (l.filter fun r => r.unit_id = u).map f := by
  unfold rulsOf
  rw [filter_pair, List.map_map]
  rfl

theorem cyclesOf_addRUL (rows : List Reading) (u : Nat) :
    cyclesOf (addRUL rows) u = unitSpan rows u := by
  unfold addRUL
  exact cyclesOf_map _ u rows

theorem rulsOf_addRUL {rows : List Reading} {u N : Nat}
    (hspan : unitSpan rows u = List.range' 1 N) (hN : 1 ≤ N) :
    rulsOf (addRUL rows) u =
      (List.range' 1 N).map fun (c : Nat) => (N : Int) - (c : Int) := by
  unfold addRUL
  rw [rulsOf_map]
  have hmax : maxCycleOf rows u = N := maxCycleOf_eq hspan hN
  have hcongr : ((rows.filter fun r => r.unit_id = u).map
      fun r => (maxCycleOf rows r.unit_id : Int) - (r.time_cycle : Int)) =
      ((rows.filter fun r => r.unit_id = u).map
        fun r => (N : Int) - (r.time_cycle : Int)) := by
    apply List.map_congr_left
    intro r hr
    have hu : r.unit_id = u := by simpa using (List.mem_filter.mp hr).2
    rw [hu, hmax]
  rw [hcongr]
  have hcomp : ((rows.filter fun r => r.unit_id = u).map
      fun r => (N : Int) - (r.time_cycle : Int)) =
      (((rows.filter fun r => r.unit_id = u).map fun r => r.time_cycle).map
        fun (c : Nat) => (N : Int) - (c : Int)) := by
    rw [List.map_map]
    rfl
  rw [hcomp]
  rw [show ((rows.filter fun r => r.unit_id = u).map fun r => r.time_cycle) =
    unitSpan rows u from rfl]
  rw [hspan]

/-! ## Configuration constants (config.py lines 52-67) -/

def PREDICTIVE_LABOR_COST : Nat := 2300
def PREDICTIVE_PARTS_COST : Nat := 4200
def PREDICTIVE_DOWNTIME_HOURS : Nat := 6
def REACTIVE_LABOR_COST : Nat := 18000
def REACTIVE_PARTS_COST : Nat := 12600
def REACTIVE_DOWNTIME_HOURS : Nat := 48
def REACTIVE_FLIGHT_CANCELLATIONS : Nat := 3
def COST_PER_CANCELLATION : Nat := 2000

def TOTAL_PREDICTIVE_COST : Nat := PREDICTIVE_LABOR_COST + PREDICTIVE_PARTS_COST

def TOTAL_REACTIVE_COST : Nat :=
  REACTIVE_LABOR_COST + REACTIVE_PARTS_COST +
    REACTIVE_FLIGHT_CANCELLATIONS * COST_PER_CANCELLATION

/-! ## Maintenance-event synthesizer (source lines 438-468)

Dates are `datetime.now() - timedelta(days=...)`; real wall-clock time is
outside the embedding, so a row carries `days_ago`, the backward offset the
source computes (`i*7` for predictive events, `i*30` for reactive ones). -/

structure MaintenanceEvent where
  aircraft_id : String
  component_id : String
  maintenance_type : String
  days_ago : Nat
  labor_cost : Nat
  parts_cost : Nat
  total_cost : Nat
  downtime_hours : Nat
  is_predictive : Bool
deriving Repr, DecidableEq

/-- `f"{n:03d}"` for the three-digit aircraft index. -/
def pad3 (n : Nat) : String :=
  if n < 10 then "00" ++ toString n
  else if n < 100 then "0" ++ toString n
  else toString n

/-- The `i`-th predictive event of the synthesis loop (source lines 441-453). -/
def predictiveEvent (i : Nat) : MaintenanceEvent :=
  { aircraft_id := "A320-" ++ pad3 (i % 3 + 1)
    component_id := "A320-" ++ pad3 (i % 3 + 1) ++ "-E" ++ toString (i % 4 + 1) ++ "-TURB"
    maintenance_type := "Predictive"
    days_ago := i * 7
    labor_cost := 2300
    parts_cost := 4200
    total_cost := 6500
    downtime_hours := 6
    is_predictive := true }

/-- The `i`-th reactive event of the synthesis loop (source lines 456-468).
The source hardcodes `total_cost = 52000` with the comment that it
"includes downtime, cancellations". -/
def reactiveEvent (i : Nat) : MaintenanceEvent :=
  { aircraft_id := "B737-001"
    component_id := "B737-001-E" ++ toString (i % 4 + 1) ++ "-TURB"
    maintenance_type := "Reactive"
    days_ago := i * 30
    labor_cost := 18000
    parts_cost := 12600
    total_cost := 52000
    downtime_hours := 48
    is_predictive := false }

/-- The synthesized event list for `p` predictive and `r` reactive events;
the source runs the loops with `p = 12` and `r = 3`. -/
def synthesizeEvents (p r : Nat) : List MaintenanceEvent :=
  (List.range p).map predictiveEvent ++ (List.range r).map reactiveEvent

/-! ## Cost-analytics aggregator (source lines 477-515) -/

/-- One row of the `cost_analytics` table (`period` is its primary key). -/
structure Analytics where
  period : String
  total_events : Nat
  predictive_count : Nat
  reactive_count : Nat
  predictive_cost : Nat
  reactive_cost : Nat
  savings : Int
  downtime_saved : Int
  flights_saved : Nat
deriving Repr, DecidableEq

/-- SQLite `SUM(expr)` over a table: `NULL` (here `none`) when the table
has no rows, otherwise the sum of `expr` over all rows. -/
def sqlSum (f : MaintenanceEvent → Nat) (evs : List MaintenanceEvent) :
    Option Nat :=
  if evs.isEmpty then none else some ((evs.map f).sum)

/-- The aggregate query of source lines 478-488 followed by the savings
arithmetic of lines 497-501.  When the event table is empty every
`SUM(CASE ...)` is `NULL`, and the Python arithmetic on the fetched `None`
values (`pred_count * 52000`, ...) raises a `TypeError`: the computation
produces no row (`none`). -/
def computeAnalytics (evs : List MaintenanceEvent) : Option Analytics :=
  match sqlSum (fun e => if e.is_predictive then 1 else 0) evs,
        sqlSum (fun e => if e.is_predictive then 0 else 1) evs,
        sqlSum (fun e => if e.is_predictive then e.total_cost else 0) evs,
        sqlSum (fun e => if e.is_predictive then 0 else e.total_cost) evs,
        sqlSum (fun e => if e.is_predictive then e.downtime_hours else 0) evs,
        sqlSum (fun e => if e.is_predictive then 0 else e.downtime_hours) evs with
  | some predCount, some reactCount, some predCost, some reactCost,
      some predDowntime, some _reactDowntime =>
    some { period := "2024-Q4"
           total_events := evs.length
           predictive_count := predCount
           reactive_count := reactCount
           predictive_cost := predCost
           reactive_cost := reactCost
           savings := (predCount * 52000 : Int) - (predCost : Int)
           downtime_saved := (predCount * 48 : Int) - (predDowntime : Int)
           flights_saved := predCount * 3 }
  | _, _, _, _, _, _ => none

/-- `INSERT OR REPLACE INTO cost_analytics` with `period` as primary key:
any existing row with the same period is deleted and the new row stored. -/
def upsert (table : List Analytics) (a : Analytics) : List Analytics :=
  (table.filter (fun row => row.period ≠ a.period)) ++ [a]

/-- The full `generate_cost_analytics`: append the synthesized events to
the `maintenance_history` table, aggregate the whole table, and upsert the
resulting row into `cost_analytics`. -/
def generate_cost_analytics (history : List MaintenanceEvent)
    (table : List Analytics) :
    Option (List MaintenanceEvent × List Analytics) :=
  let history1 := history ++ synthesizeEvents 12 3
  match computeAnalytics history1 with
  | none => none
  | some a => some (history1, upsert table a)

/-- The cost-reduction percentage printed by `generate_report`
(source line 621): `total_savings / (predictive_count * 52000) * 100`. -/
def savingsPct (a : Analytics) : ℚ :=
  (a.savings : ℚ) / ((a.predictive_count : ℚ) * 52000) * 100

/-! ## Supplier ranker (source lines 544-574) -/

/-- One row of the `supplier_parts JOIN suppliers` relation: the offer of
one supplier for one part, carrying the supplier columns the query
selects. -/
structure SupplierOffer where
  supplier_id : String
  name : String
  location : String
  rating : ℚ
  reliability_score : ℚ
  part_number : String
  unit_price : ℚ
  delivery_days : Nat
deriving Repr, DecidableEq

/-- The `ORDER BY` expression of source line 560:
`unit_price * 0.4 + delivery_days * 100 * 0.3 + (5 - rating) * 500 * 0.3`. -/
def score (o : SupplierOffer) : ℚ :=
  o.unit_price * (4/10) + (o.delivery_days : ℚ) * 100 * (3/10) +
    (5 - o.rating) * 500 * (3/10)

/-- The result dictionary of `find_best_supplier`. -/
structure BestSupplier where
  supplier : String
  location : String
  rating : ℚ
  price : ℚ
  delivery_days : Nat
  reliability : ℚ
deriving Repr, DecidableEq

/-- The columns the query projects out of the selected offer. -/
def toBest (o : SupplierOffer) : BestSupplier :=
  { supplier := o.name
    location := o.location
    rating := o.rating
    price := o.unit_price
    delivery_days := o.delivery_days
    reliability := o.reliability_score }

/-- First row of the matching offers in score-ascending order (ties keep
the earlier row, a stable deterministic order). -/
def selectMin (o : SupplierOffer) (os : List SupplierOffer) : SupplierOffer :=
  os.foldl (fun best x => if score x < score best then x else best) o

/-- `find_best_supplier(part_number)`: filter the offer relation to the
part, order by the weighted score ascending, `LIMIT 1`; `fetchone()`
returns `None` (here `none`) when no offer matches. -/
def find_best_supplier (offers : List SupplierOffer) (part : String) :
    Option BestSupplier :=
  match offers.filter (fun o => o.part_number = part) with
  | [] => none
  | o :: os => some (toBest (selectMin o os))

/-! ## Lemmas about the aggregator -/

theorem sqlSum_of_ne_nil (f : MaintenanceEvent → Nat) {evs : List MaintenanceEvent}
    (h : evs ≠ []) : sqlSum f evs = some ((evs.map f).sum) := by
  unfold sqlSum
  rw [if_neg]
  simp [h]

theorem sum_ite_filter (p : MaintenanceEvent → Bool) (f : MaintenanceEvent → Nat) :
    ∀ l : List MaintenanceEvent,
      ((l.map fun e => if p e then f e else 0).sum) = ((l.filter p).map f).sum := by
  intro l
  induction l with
  | nil => rfl
  | cons e l ih =>
    by_cases h : p e
    · simp [List.filter_cons, h, ih]
    · simp [List.filter_cons, h, ih]

theorem sum_ite_nfilter (p : MaintenanceEvent → Bool) (f : MaintenanceEvent → Nat) :
    ∀ l : List MaintenanceEvent,
      ((l.map fun e => if p e then 0 else f e).sum) =
        ((l.filter fun e => !p e).map f).sum := by
  intro l
  induction l with
  | nil => rfl
  | cons e l ih =>
    by_cases h : p e
    · simp [List.filter_cons, h, ih]
    · simp [List.filter_cons, h, ih]

theorem sum_ite_count (p : MaintenanceEvent → Bool) :
    ∀ l : List MaintenanceEvent,
      ((l.map fun e => if p e then (1 : Nat) else 0).sum) = (l.filter p).length := by
  intro l
  induction l with
  | nil => rfl
  | cons e l ih =>
    by_cases h : p e
    · simp [List.filter_cons, h, ih]
      omega
    · simp [List.filter_cons, h, ih]

theorem sum_ite_ncount (p : MaintenanceEvent → Bool) :
    ∀ l : List MaintenanceEvent,
      ((l.map fun e => if p e then 0 else (1 : Nat)).sum) =
        (l.filter fun e => !p e).length := by
  intro l
  induction l with
  | nil => rfl
  | cons e l ih =>
    by_cases h : p e
    · simp [List.filter_cons, h, ih]
    · simp [List.filter_cons, h, ih]
      omega

/-- The explicit value the aggregation produces on any non-empty event
table, with the `SUM(CASE ...)` expressions rewritten as sums over the
predictive/reactive partitions. -/
theorem computeAnalytics_of_ne_nil {evs : List MaintenanceEvent} (h : evs ≠ []) :
    computeAnalytics evs = some
      { period := "2024-Q4"
        total_events := evs.length
        predictive_count := (evs.filter fun e => e.is_predictive).length
        reactive_count := (evs.filter fun e => !e.is_predictive).length
        predictive_cost :=
          ((evs.filter fun e => e.is_predictive).map fun e => e.total_cost).sum
        reactive_cost :=
          ((evs.filter fun e => !e.is_predictive).map fun e => e.total_cost).sum
        savings := ((evs.filter fun e => e.is_predictive).length * 52000 : Int) -
          ((((evs.filter fun e => e.is_predictive).map fun e => e.total_cost).sum : Nat) : Int)
        downtime_saved := ((evs.filter fun e => e.is_predictive).length * 48 : Int) -
          ((((evs.filter fun e => e.is_predictive).map fun e => e.downtime_hours).sum : Nat) : Int)
        flights_saved := (evs.filter fun e => e.is_predictive).length * 3 } := by
  unfold computeAnalytics
  rw [sqlSum_of_ne_nil _ h, sqlSum_of_ne_nil _ h, sqlSum_of_ne_nil _ h,
    sqlSum_of_ne_nil _ h, sqlSum_of_ne_nil _ h, sqlSum_of_ne_nil _ h]
  rw [sum_ite_filter (fun e => e.is_predictive) (fun e => e.total_cost),
    sum_ite_nfilter (fun e => e.is_predictive) (fun e => e.total_cost),
    sum_ite_filter (fun e => e.is_predictive) (fun e => e.downtime_hours),
    sum_ite_count (fun e => e.is_predictive),
    sum_ite_ncount (fun e => e.is_predictive)]

/-! ## Lemmas about the supplier ranker -/

theorem selectMin_cons (o x : SupplierOffer) (xs : List SupplierOffer) :
    selectMin o (x :: xs) = selectMin (if score x < score o then x else o) xs := rfl

theorem selectMin_mem (os : List SupplierOffer) : ∀ o, selectMin o os ∈ o :: os := by
  induction os with
  | nil => intro o; simp [selectMin]
  | cons x xs ih =>
    intro o
    rw [selectMin_cons]
    rcases List.mem_cons.mp (ih (if score x < score o then x else o)) with h1 | h1
    · rw [h1]
      by_cases hc : score x < score o
      · rw [if_pos hc]
        exact List.mem_cons_of_mem _ (List.mem_cons_self _ _)
      · rw [if_neg hc]
        exact List.mem_cons_self _ _
    · exact List.mem_cons_of_mem _ (List.mem_cons_of_mem _ h1)

theorem selectMin_le (os : List SupplierOffer) :
    ∀ o, ∀ x ∈ o :: os, score (selectMin o os) ≤ score x := by
  induction os with
  | nil =>
    intro o x hx
    rcases List.mem_cons.mp hx with rfl | hx1
    · exact le_refl _
    · simp at hx1
  | cons y ys ih =>
    intro o x hx
    rw [selectMin_cons]
    by_cases hc : score y < score o
    · rw [if_pos hc]
      have hhead : score (selectMin y ys) ≤ score y :=
        ih y y (List.mem_cons_self _ _)
      rcases List.mem_cons.mp hx with rfl | hx1
      · exact le_trans hhead (le_of_lt hc)
      · rcases List.mem_cons.mp hx1 with rfl | hx2
        · exact hhead
        · exact ih y x (List.mem_cons_of_mem _ hx2)
    · rw [if_neg hc]
      have hhead : score (selectMin o ys) ≤ score o :=
        ih o o (List.mem_cons_self _ _)
      rcases List.mem_cons.mp hx with rfl | hx1
      · exact hhead
      · rcases List.mem_cons.mp hx1 with rfl | hx2
        · exact le_trans hhead (not_lt.mp hc)
        · exact ih o x (List.mem_cons_of_mem _ hx2)

/-- The first offer of the spec's ranker scenario:
price 4200, delivery 5 days, rating 4.8. -/
def offerA : SupplierOffer :=
  { supplier_id := "SUP-001"
    name := "GE Aviation Parts"
    location := "Cincinnati, OH"
    rating := 24/5
    reliability_score := 49/50
    part_number := "HPT-8472-A"
    unit_price := 4200
    delivery_days := 5 }

/-- The second offer of the spec's ranker scenario:
price 4000, delivery 7 days, rating 4.5. -/
def offerB : SupplierOffer :=
  { supplier_id := "SUP-004"
    name := "AAR Corp"
    location := "Wood Dale, IL"
    rating := 9/2
    reliability_score := 47/50
    part_number := "HPT-8472-A"
    unit_price := 4000
    delivery_days := 7 }

/-! ## Claim C1: the terminal-cycle RUL law -/

/-- C1: for every generated unit `u` with lifespan `N` and every cycle `c`
in `1..N`, the reading's RUL equals `N - c`; within a unit RUL is
non-negative and strictly decreasing as cycle increases, and `RUL = 0`
exactly at the terminal cycle `c = N`. -/
theorem generator_rul_law (units mn mx seed : Nat) (out : List (Reading × Int))
    (hmn : 1 ≤ mn) (h : create_nasa_sample_data units mn mx seed = some out) :
    ∀ u ∈ List.range' 1 units, ∃ N, 1 ≤ N ∧
      cyclesOf out u = List.range' 1 N ∧
      (∀ p ∈ out, p.1.unit_id = u →
        p.2 = (N : Int) - (p.1.time_cycle : Int) ∧ 0 ≤ p.2 ∧
        1 ≤ p.1.time_cycle ∧ p.1.time_cycle ≤ N ∧
        (p.2 = 0 ↔ p.1.time_cycle = N)) ∧
      (∀ p ∈ out, ∀ q ∈ out, p.1.unit_id = u → q.1.unit_id = u →
        p.1.time_cycle < q.1.time_cycle → q.2 < p.2) := by
  obtain ⟨rows, rfl, hmem, hspec⟩ := create_spec h
  intro u hu
  obtain ⟨N, hminN, hNmax, hspan⟩ := hspec u hu
  have hN : 1 ≤ N := le_trans hmn hminN
  have hmax : maxCycleOf rows u = N := maxCycleOf_eq hspan hN
  refine ⟨N, hN, ?_, ?_, ?_⟩
  · rw [cyclesOf_addRUL, hspan]
  · intro p hp hpu
    obtain ⟨hp1, hp2⟩ := mem_addRUL hp
    have hcyc : p.1.time_cycle ∈ unitSpan rows u := by
      unfold unitSpan
      exact List.mem_map.mpr ⟨p.1, List.mem_filter.mpr ⟨hp1, by simpa using hpu⟩, rfl⟩
    rw [hspan, List.mem_range'_1] at hcyc
    rw [hpu, hmax] at hp2
    refine ⟨hp2, ?_, ?_, ?_, ?_⟩ <;> omega
  · intro p hp q hq hpu hqu hlt
    obtain ⟨hp1, hp2⟩ := mem_addRUL hp
    obtain ⟨hq1, hq2⟩ := mem_addRUL hq
    rw [hpu, hmax] at hp2
    rw [hqu, hmax] at hq2
    omega

/-- Witness for C1: the RUL law instantiated on the concrete run with one
unit, cycle range `[1, 2)` and seed 0. -/
theorem generator_rul_law_witness :
    1 ≤ 1 ∧
    ∀ u ∈ List.range' 1 1, ∃ N, 1 ≤ N ∧
      cyclesOf ((create_nasa_sample_data 1 1 2 0).getD []) u = List.range' 1 N ∧
      (∀ p ∈ (create_nasa_sample_data 1 1 2 0).getD [], p.1.unit_id = u →
        p.2 = (N : Int) - (p.1.time_cycle : Int) ∧ 0 ≤ p.2 ∧
        1 ≤ p.1.time_cycle ∧ p.1.time_cycle ≤ N ∧
        (p.2 = 0 ↔ p.1.time_cycle = N)) ∧
      (∀ p ∈ (create_nasa_sample_data 1 1 2 0).getD [],
        ∀ q ∈ (create_nasa_sample_data 1 1 2 0).getD [],
        p.1.unit_id = u → q.1.unit_id = u →
        p.1.time_cycle < q.1.time_cycle → q.2 < p.2) :=
  ⟨Nat.le_refl 1,
    generator_rul_law 1 1 2 0 ((create_nasa_sample_data 1 1 2 0).getD [])
      (Nat.le_refl 1) rfl⟩

/-! ## Claim C5: the lifespan draw -/

/-- C5 counterexample: with `unit_count = 2`, `min = 150`, `max = 150` the
generator does not produce 150 readings per unit; `np.random.randint(150,
150)` raises `ValueError` (the range is treated as half-open), so the run
produces nothing at all. -/
theorem lifespan_minmax_counterexample :
    create_nasa_sample_data 2 150 150 0 = none := rfl

/-- C5 (amended): the lifespan is drawn uniformly from the half-open
integer range `[min_cycles, max_cycles)` — the upper bound is exclusive,
and `min = max` makes the generator fail; with `unit_count = 2`,
`min = 150`, `max = 151` and any seed the draw is forced to 150 and the
generator produces exactly 150 readings per unit with RUL values running
149, 148, ..., 0. -/
theorem lifespan_halfopen_range (low high : Nat) (g : RNG) :
    (∀ v g1, randint low high g = some (v, g1) → low ≤ v ∧ v < high) ∧
    (high ≤ low → randint low high g = none) ∧
    (∀ seed : Nat, ∃ out, create_nasa_sample_data 2 150 151 seed = some out ∧
      ∀ u ∈ List.range' 1 2,
        (cyclesOf out u).length = 150 ∧
        cyclesOf out u = List.range' 1 150 ∧
        rulsOf out u = (List.range' 1 150).map fun (c : Nat) => (150 : Int) - (c : Int)) := by
  refine ⟨fun v g1 h => randint_some h, fun h => randint_none g h, ?_⟩
  intro seed
  obtain ⟨res, hres⟩ :=
    genAllRows_total 150 151 (by omega) (List.range' 1 2) (mkRNG seed)
  have hout : create_nasa_sample_data 2 150 151 seed = some (addRUL res.1) := by
    unfold create_nasa_sample_data
    rw [hres]
  refine ⟨addRUL res.1, hout, ?_⟩
  intro u hu
  obtain ⟨-, hspec⟩ :=
    genAllRows_spec 150 151 (List.range' 1 2) (mkRNG seed) res
      (List.nodup_range' 1 2) hres
  obtain ⟨N, hN1, hN2, hspan⟩ := hspec u hu
  have hN : N = 150 := by omega
  subst hN
  refine ⟨?_, ?_, ?_⟩
  · rw [cyclesOf_addRUL, hspan, List.length_range']
  · rw [cyclesOf_addRUL, hspan]
  · have h150 : (1 : Nat) ≤ 150 := by omega
    exact rulsOf_addRUL hspan h150

/-- Witness for C5's amended theorem: at `low = 150`, `high = 151`,
`g = mkRNG 0`, the draw is 150 and in range, and the seed-0 run exists. -/
theorem lifespan_halfopen_range_witness :
    (150 ≤ 150 ∧ 150 < 151) ∧
    (∃ out, create_nasa_sample_data 2 150 151 0 = some out ∧
      ∀ u ∈ List.range' 1 2,
        (cyclesOf out u).length = 150 ∧
        cyclesOf out u = List.range' 1 150 ∧
        rulsOf out u = (List.range' 1 150).map fun (c : Nat) => (150 : Int) - (c : Int)) :=
  ⟨(lifespan_halfopen_range 150 151 (mkRNG 0)).1 150 ((mkRNG 0).next.2) rfl,
    (lifespan_halfopen_range 150 151 (mkRNG 0)).2.2 0⟩

/-! ## Claim C6: determinism of the generator -/

/-- C6: the degradation-series generator is deterministic — two runs with
identical `(unit_count, min_cycles, max_cycles, seed)` produce identical
`Reading` sequences, element for element. -/
theorem generator_deterministic (units mn mx seed : Nat)
    (out1 out2 : List (Reading × Int))
    (h1 : create_nasa_sample_data units mn mx seed = some out1)
    (h2 : create_nasa_sample_data units mn mx seed = some out2) :
    out1 = out2 ∧ ∀ i : Nat, out1[i]? = out2[i]? := by
  have h : out1 = out2 := Option.some.injEq _ _ ▸ (h1.symm.trans h2)
  exact ⟨h, fun i => by rw [h]⟩

/-- Witness for C6: both runs at `(1, 1, 2, 0)` coincide. -/
theorem generator_deterministic_witness :
    ((create_nasa_sample_data 1 1 2 0).getD [] =
      (create_nasa_sample_data 1 1 2 0).getD []) ∧
    ∀ i : Nat, ((create_nasa_sample_data 1 1 2 0).getD [])[i]? =
      ((create_nasa_sample_data 1 1 2 0).getD [])[i]? :=
  generator_deterministic 1 1 2 0
    ((create_nasa_sample_data 1 1 2 0).getD [])
    ((create_nasa_sample_data 1 1 2 0).getD []) rfl rfl

/-! ## Remaining shared helpers -/

/-- Any row of `cost_analytics` with all counts, costs and savings zero. -/
def zeroAnalytics : Analytics :=
  { period := "2024-Q4"
    total_events := 0
    predictive_count := 0
    reactive_count := 0
    predictive_cost := 0
    reactive_cost := 0
    savings := 0
    downtime_saved := 0
    flights_saved := 0 }

/-- The analytics row produced for the single event `predictiveEvent 0`. -/
def analyticsP0 : Analytics :=
  { period := "2024-Q4"
    total_events := 1
    predictive_count := 1
    reactive_count := 0
    predictive_cost := 6500
    reactive_cost := 0
    savings := 45500
    downtime_saved := 42
    flights_saved := 3 }

theorem filter_upsert (table : List Analytics) (a : Analytics) :
    (upsert table a).filter (fun row => row.period = a.period) = [a] := by
  unfold upsert
  rw [List.filter_append]
  have h1 : (table.filter fun row => row.period ≠ a.period).filter
      (fun row => row.period = a.period) = [] := by
    rw [List.filter_eq_nil_iff]
    intro r hr
    have h2 := (List.mem_filter.mp hr).2
    simp at h2 ⊢
    exact h2
  rw [h1]
  simp

theorem upsert_mem (table : List Analytics) (a : Analytics) :
    ∀ row ∈ upsert table a, row.period ≠ a.period → row ∈ table := by
  intro row hrow hne
  unfold upsert at hrow
  rcases List.mem_append.mp hrow with h1 | h1
  · exact (List.mem_filter.mp h1).1
  · have h2 : row = a := by simpa using h1
    rw [h2] at hne
    exact absurd rfl hne

theorem sum_const_nat (m : Nat) :
    ∀ l : List Nat, (∀ x ∈ l, x = m) → l.sum = l.length * m := by
  intro l
  induction l with
  | nil => intro _; simp
  | cons x l ih =>
    intro h
    have hx : x = m := h x (List.mem_cons_self _ _)
    have ht := ih fun y hy => h y (List.mem_cons_of_mem _ hy)
    simp [hx, ht]
    ring

/-! ## Claim C2: the counterfactual savings formula -/

/-- C2: the aggregator computes savings as a constant-multiplied
counterfactual — `avoided_reactive_cost = predictive_count * 52000`,
`savings = avoided_reactive_cost - predictive_cost`,
`downtime_saved = predictive_count * 48 - predictive_downtime`,
`flights_saved = predictive_count * 3` — and on the 12 predictive plus 3
reactive synthesized events it yields predictive cost 78000, reactive cost
156000, savings 546000, downtime saved 504 and flights saved 36. -/
theorem aggregator_counterfactual (evs : List MaintenanceEvent) (a : Analytics)
    (h : computeAnalytics evs = some a) :
    a.predictive_count = (evs.filter fun e => e.is_predictive).length ∧
    a.reactive_count = (evs.filter fun e => !e.is_predictive).length ∧
    a.predictive_cost =
      ((evs.filter fun e => e.is_predictive).map fun e => e.total_cost).sum ∧
    a.reactive_cost =
      ((evs.filter fun e => !e.is_predictive).map fun e => e.total_cost).sum ∧
    a.savings = (a.predictive_count * 52000 : Int) - (a.predictive_cost : Int) ∧
    a.downtime_saved = (a.predictive_count * 48 : Int) -
      ((((evs.filter fun e => e.is_predictive).map fun e => e.downtime_hours).sum : Nat) : Int) ∧
    a.flights_saved = a.predictive_count * 3 ∧
    computeAnalytics (synthesizeEvents 12 3) = some
      { period := "2024-Q4", total_events := 15, predictive_count := 12,
        reactive_count := 3, predictive_cost := 78000, reactive_cost := 156000,
        savings := 546000, downtime_saved := 504, flights_saved := 36 } := by
  have hne : evs ≠ [] := by
    intro hnil
    rw [hnil] at h
    nomatch h
  rw [computeAnalytics_of_ne_nil hne] at h
  injection h with h
  subst h
  exact ⟨rfl, rfl, rfl, rfl, rfl, rfl, rfl, rfl⟩

/-- Witness for C2: the counterfactual formula instantiated on the single
synthesized event `predictiveEvent 0`. -/
theorem aggregator_counterfactual_witness :
    analyticsP0.predictive_count =
      ([predictiveEvent 0].filter fun e => e.is_predictive).length ∧
    analyticsP0.reactive_count =
      ([predictiveEvent 0].filter fun e => !e.is_predictive).length ∧
    analyticsP0.predictive_cost =
      (([predictiveEvent 0].filter fun e => e.is_predictive).map fun e => e.total_cost).sum ∧
    analyticsP0.reactive_cost =
      (([predictiveEvent 0].filter fun e => !e.is_predictive).map fun e => e.total_cost).sum ∧
    analyticsP0.savings =
      (analyticsP0.predictive_count * 52000 : Int) - (analyticsP0.predictive_cost : Int) ∧
    analyticsP0.downtime_saved = (analyticsP0.predictive_count * 48 : Int) -
      (((([predictiveEvent 0].filter fun e => e.is_predictive).map fun e => e.downtime_hours).sum : Nat) : Int) ∧
    analyticsP0.flights_saved = analyticsP0.predictive_count * 3 ∧
    computeAnalytics (synthesizeEvents 12 3) = some
      { period := "2024-Q4", total_events := 15, predictive_count := 12,
        reactive_count := 3, predictive_cost := 78000, reactive_cost := 156000,
        savings := 546000, downtime_saved := 504, flights_saved := 36 } :=
  aggregator_counterfactual [predictiveEvent 0] analyticsP0 rfl

/-! ## Claim C4: event total-cost composition -/

/-- C4 counterexample: the first synthesized reactive event has
`total_cost = 52000`, which is not `labor + parts + 3 * 2000 = 36600`
(its hardcoded total also folds in downtime-related cost). -/
theorem reactive_total_counterexample :
    reactiveEvent 0 ∈ synthesizeEvents 12 3 ∧
    (reactiveEvent 0).total_cost ≠
      (reactiveEvent 0).labor_cost + (reactiveEvent 0).parts_cost +
        REACTIVE_FLIGHT_CANCELLATIONS * COST_PER_CANCELLATION := by
  constructor
  · unfold synthesizeEvents
    exact List.mem_append.mpr (Or.inr (List.mem_map.mpr ⟨0, by decide, rfl⟩))
  · decide

/-- C4 (amended): every synthesized predictive event has
`total_cost = labor_cost + parts_cost`; every synthesized reactive event
has `total_cost = 52000`, which strictly exceeds `labor + parts` and is at
least `labor + parts + 3 * 2000` — the 21400 excess folds the cancellation
penalty together with further downtime cost into one hardcoded figure
rather than being exactly the three-cancellation penalty. -/
theorem synthesizer_total_cost (p r : Nat) (e : MaintenanceEvent)
    (he : e ∈ synthesizeEvents p r) :
    (e.is_predictive = true → e.total_cost = e.labor_cost + e.parts_cost) ∧
    (e.is_predictive = false →
      e.total_cost = 52000 ∧
      e.labor_cost + e.parts_cost +
        REACTIVE_FLIGHT_CANCELLATIONS * COST_PER_CANCELLATION ≤ e.total_cost ∧
      e.labor_cost + e.parts_cost < e.total_cost) := by
  unfold synthesizeEvents at he
  rcases List.mem_append.mp he with h1 | h1
  · rcases List.mem_map.mp h1 with ⟨i, -, rfl⟩
    exact ⟨fun _ => rfl, fun hf => absurd hf (by simp [predictiveEvent])⟩
  · rcases List.mem_map.mp h1 with ⟨i, -, rfl⟩
    refine ⟨fun ht => absurd ht (by simp [reactiveEvent]), fun _ => ⟨rfl, ?_, ?_⟩⟩
    · show 18000 + 12600 + REACTIVE_FLIGHT_CANCELLATIONS * COST_PER_CANCELLATION ≤ 52000
      decide
    · show 18000 + 12600 < 52000
      decide

/-- Witness for C4's amended theorem at the first synthesized reactive
event. -/
theorem synthesizer_total_cost_witness :
    reactiveEvent 0 ∈ synthesizeEvents 12 3 ∧
    (((reactiveEvent 0).is_predictive = true →
        (reactiveEvent 0).total_cost =
          (reactiveEvent 0).labor_cost + (reactiveEvent 0).parts_cost) ∧
      ((reactiveEvent 0).is_predictive = false →
        (reactiveEvent 0).total_cost = 52000 ∧
        (reactiveEvent 0).labor_cost + (reactiveEvent 0).parts_cost +
          REACTIVE_FLIGHT_CANCELLATIONS * COST_PER_CANCELLATION ≤
            (reactiveEvent 0).total_cost ∧
        (reactiveEvent 0).labor_cost + (reactiveEvent 0).parts_cost <
          (reactiveEvent 0).total_cost)) :=
  ⟨by
    unfold synthesizeEvents
    exact List.mem_append.mpr (Or.inr (List.mem_map.mpr ⟨0, by decide, rfl⟩)),
   synthesizer_total_cost 12 3 (reactiveEvent 0)
    (by
      unfold synthesizeEvents
      exact List.mem_append.mpr (Or.inr (List.mem_map.mpr ⟨0, by decide, rfl⟩)))⟩

/-! ## Claim C7: the empty event set -/

/-- C7 counterexample: on an empty event table the aggregation produces no
row at all — SQLite's `SUM` returns `NULL` and the Python savings
arithmetic on `None` raises — rather than a zeroed `AnalyticsPeriod`. -/
theorem empty_events_counterexample :
    computeAnalytics [] = none ∧ computeAnalytics [] ≠ some zeroAnalytics := by
  constructor
  · rfl
  · intro hc
    nomatch hc

/-- C7 (amended): given an empty set of maintenance events the aggregation
fails (produces no `AnalyticsPeriod` row), and it fails exactly on the
empty set: every non-empty event set yields a row. -/
theorem empty_events_fails (evs : List MaintenanceEvent) :
    computeAnalytics evs = none ↔ evs = [] := by
  constructor
  · intro h
    by_contra hne
    rw [computeAnalytics_of_ne_nil hne] at h
    nomatch h
  · rintro rfl
    rfl

/-! ## Claim C9: idempotence and wholesale replacement -/

/-- C9: aggregation is a pure function of the event set (two runs on the
same events give identical `AnalyticsPeriod` values), and the
`INSERT OR REPLACE` upsert keyed by the period label replaces the prior row
wholesale: after an upsert the table holds exactly the new row for that
period, rows of other periods are untouched, and re-upserting a row for the
same period leaves only the latest row. -/
theorem aggregator_idempotent_upsert (evs : List MaintenanceEvent)
    (table : List Analytics) (a a' : Analytics) (_hperiod : a.period = a'.period) :
    computeAnalytics evs = computeAnalytics evs ∧
    (upsert table a).filter (fun row => row.period = a.period) = [a] ∧
    (∀ row ∈ upsert table a, row.period ≠ a.period → row ∈ table) ∧
    (upsert (upsert table a) a').filter (fun row => row.period = a'.period) = [a'] :=
  ⟨rfl, filter_upsert table a, upsert_mem table a,
    filter_upsert (upsert table a) a'⟩

/-- Witness for C9 at a concrete table and row. -/
theorem aggregator_idempotent_upsert_witness :
    computeAnalytics [] = computeAnalytics [] ∧
    (upsert [] zeroAnalytics).filter
      (fun row => row.period = zeroAnalytics.period) = [zeroAnalytics] ∧
    (∀ row ∈ upsert [] zeroAnalytics,
      row.period ≠ zeroAnalytics.period → row ∈ []) ∧
    (upsert (upsert [] zeroAnalytics) zeroAnalytics).filter
      (fun row => row.period = zeroAnalytics.period) = [zeroAnalytics] :=
  aggregator_idempotent_upsert [] [] zeroAnalytics zeroAnalytics rfl

/-! ## Claim C10: the constant 87.5% cost reduction -/

/-- C10: whenever every predictive event costs 6500 (as every synthesized
predictive event does) and there is at least one predictive event, the
computed savings equal `45500 * predictive_count`, so the reported
cost-reduction ratio `savings / (predictive_count * 52000)` is the
constant 7/8 — i.e. `savingsPct` is the constant 87.5% — independent of
the event counts. -/
theorem savings_ratio_constant (evs : List MaintenanceEvent) (a : Analytics)
    (h : computeAnalytics evs = some a)
    (hcost : ∀ e ∈ evs, e.is_predictive = true → e.total_cost = 6500)
    (hpos : 0 < a.predictive_count) :
    a.savings = 45500 * (a.predictive_count : Int) ∧
    (a.savings : ℚ) / ((a.predictive_count : ℚ) * 52000) = 7 / 8 ∧
    savingsPct a = 175 / 2 := by
  have hne : evs ≠ [] := by
    intro hnil
    rw [hnil] at h
    nomatch h
  rw [computeAnalytics_of_ne_nil hne] at h
  injection h with h
  subst h
  simp only [savingsPct] at hpos ⊢
  have hsum : (((evs.filter fun e => e.is_predictive).map fun e => e.total_cost).sum : Nat) =
      ((evs.filter fun e => e.is_predictive).map fun e => e.total_cost).length * 6500 := by
    apply sum_const_nat
    intro x hx
    rcases List.mem_map.mp hx with ⟨e, he, rfl⟩
    have hef := List.mem_filter.mp he
    exact hcost e hef.1 (by simpa using hef.2)
  rw [List.length_map] at hsum
  have hq : ((evs.filter fun e => e.is_predictive).length : ℚ) ≠ 0 := by
    exact Nat.cast_ne_zero.mpr (by omega)
  refine ⟨?_, ?_, ?_⟩
  · simp only [hsum]
    push_cast
    ring
  · simp only [hsum]
    push_cast
    field_simp
    ring
  · simp only [hsum]
    push_cast
    field_simp
    ring

/-- Witness for C10 on the single synthesized event `predictiveEvent 0`. -/
theorem savings_ratio_constant_witness :
    0 < analyticsP0.predictive_count ∧
    (analyticsP0.savings = 45500 * (analyticsP0.predictive_count : Int) ∧
      (analyticsP0.savings : ℚ) / ((analyticsP0.predictive_count : ℚ) * 52000) = 7 / 8 ∧
      savingsPct analyticsP0 = 175 / 2) :=
  ⟨by decide,
    savings_ratio_constant [predictiveEvent 0] analyticsP0 rfl
      (by decide) (by decide)⟩

/-! ## Claim C3: the ranker minimizes the weighted score -/

/-- C3: for every non-empty set of offers for a part the ranker selects an
offer whose weighted score `unit_price*0.4 + delivery_days*100*0.3 +
(5 - rating)*500*0.3` is minimal; on the spec's two-offer scenario it
selects the first offer, whose score is 1860 versus 1885. -/
theorem ranker_selects_min (offers : List SupplierOffer) (part : String)
    (h : offers.filter (fun o => o.part_number = part) ≠ []) :
    (∃ chosen ∈ offers.filter (fun o => o.part_number = part),
      find_best_supplier offers part = some (toBest chosen) ∧
      ∀ o ∈ offers.filter (fun o => o.part_number = part), score chosen ≤ score o) ∧
    find_best_supplier [offerA, offerB] "HPT-8472-A" = some (toBest offerA) ∧
    score offerA = 1860 ∧ score offerB = 1885 := by
  refine ⟨?_, ?_, ?_, ?_⟩
  · cases hf : offers.filter (fun o => o.part_number = part) with
    | nil => exact absurd hf h
    | cons o os =>
      refine ⟨selectMin o os, ?_, ?_, ?_⟩
      · exact selectMin_mem os o
      · unfold find_best_supplier
        rw [hf]
      · exact selectMin_le os o
  · have hA : offerA.part_number = "HPT-8472-A" := rfl
    have hB : offerB.part_number = "HPT-8472-A" := rfl
    have hs : ¬ (score offerB < score offerA) := by
      norm_num [score, offerA, offerB]
    simp only [find_best_supplier, selectMin, List.filter_cons, hA, hB]
    norm_num [List.foldl, hs]
  · norm_num [score, offerA]
  · norm_num [score, offerB]

/-- Witness for C3 on the spec's two-offer scenario. -/
theorem ranker_selects_min_witness :
    [offerA, offerB].filter (fun o => o.part_number = "HPT-8472-A") ≠ [] ∧
    ((∃ chosen ∈ [offerA, offerB].filter (fun o => o.part_number = "HPT-8472-A"),
      find_best_supplier [offerA, offerB] "HPT-8472-A" = some (toBest chosen) ∧
      ∀ o ∈ [offerA, offerB].filter (fun o => o.part_number = "HPT-8472-A"),
        score chosen ≤ score o) ∧
     find_best_supplier [offerA, offerB] "HPT-8472-A" = some (toBest offerA) ∧
     score offerA = 1860 ∧ score offerB = 1885) :=
  ⟨by decide, ranker_selects_min [offerA, offerB] "HPT-8472-A" (by decide)⟩

/-! ## Claim C8: the ranker's not-found result -/

/-- C8: with no offer for the requested part the ranker returns the
explicit "no offer found" result `none` (not a hard failure), and with a
non-empty offer set it returns the selected supplier's identity, location,
rating, price, delivery days and reliability. -/
theorem ranker_not_found (offers : List SupplierOffer) (part : String) :
    (find_best_supplier offers part = none ↔
      offers.filter (fun o => o.part_number = part) = []) ∧
    (∀ b, find_best_supplier offers part = some b →
      ∃ o ∈ offers.filter (fun o => o.part_number = part),
        b = toBest o ∧ b.supplier = o.name ∧ b.location = o.location ∧
        b.rating = o.rating ∧ b.price = o.unit_price ∧
        b.delivery_days = o.delivery_days ∧ b.reliability = o.reliability_score) := by
  constructor
  · constructor
    · intro h
      cases hf : offers.filter (fun o => o.part_number = part) with
      | nil => rfl
      | cons o os =>
        unfold find_best_supplier at h
        rw [hf] at h
        nomatch h
    · intro hf
      unfold find_best_supplier
      rw [hf]
  · intro b hb
    cases hf : offers.filter (fun o => o.part_number = part) with
    | nil =>
      unfold find_best_supplier at hb
      rw [hf] at hb
      nomatch hb
    | cons o os =>
      unfold find_best_supplier at hb
      rw [hf] at hb
      injection hb with hb
      subst hb
      refine ⟨selectMin o os, ?_, rfl, rfl, rfl, rfl, rfl, rfl, rfl⟩
      exact selectMin_mem os o

/-- Witness for C8: the empty-offer case and the one-offer case. -/
theorem ranker_not_found_witness :
    (find_best_supplier [] "HPT-8472-A" = none ↔
      ([] : List SupplierOffer).filter (fun o => o.part_number = "HPT-8472-A") = []) ∧
    (∃ o : SupplierOffer, o ∈ [offerA].filter (fun o => o.part_number = "HPT-8472-A") ∧
      toBest offerA = toBest o ∧ (toBest offerA).supplier = o.name ∧
      (toBest offerA).location = o.location ∧
      (toBest offerA).rating = o.rating ∧
      (toBest offerA).price = o.unit_price ∧
      (toBest offerA).delivery_days = o.delivery_days ∧
      (toBest offerA).reliability = o.reliability_score) :=
  ⟨(ranker_not_found [] "HPT-8472-A").1,
    (ranker_not_found [offerA] "HPT-8472-A").2 (toBest offerA) rfl⟩

end AeroPredict
